import Mathlib

set_option maxHeartbeats 1600000

/-!
A shallow embedding of the Bellingcat Radar Interference Tracker
(`src/RIT.js`), an Earth Engine application that displays time-aggregated
Sentinel-1 SAR composites and a per-point RFI time series.

Modelling conventions:
* Timestamps are `Nat` milliseconds since the proleptic-Gregorian epoch of
  year 0 (UTC); calendar arithmetic is exact.
* Rasters are finite association lists from pixels (integer grid) to
  backscatter values; a pixel absent from the list is masked (no data).
* Collection reduction with a maximum (`ImageCollection.max`) is the
  per-pixel maximum over the images that carry data at the pixel; over an
  empty collection every pixel is masked (`none`).
* Opacities and coordinates are exact rationals; the `toFixed(2)` display
  formatting of coordinates is presentation-layer and is kept as the raw
  coordinate pair.
-/

namespace RIT

/-- A UTC calendar date (year, month 1..12, day 1..31). -/
structure Date where
  year : Nat
  month : Nat
  day : Nat
deriving DecidableEq, Repr

/-- Gregorian leap-year rule. -/
def isLeap (y : Nat) : Bool :=
  (y % 4 == 0 && y % 100 != 0) || (y % 400 == 0)

/-- Length of month `m` of year `y` (0 for an out-of-range month index). -/
def daysInMonth (y : Nat) : Nat → Nat
  | 1 => 31
  | 2 => if isLeap y then 29 else 28
  | 3 => 31
  | 4 => 30
  | 5 => 31
  | 6 => 30
  | 7 => 31
  | 8 => 31
  | 9 => 30
  | 10 => 31
  | 11 => 30
  | 12 => 31
  | _ => 0

/-- Days of year `y` that elapse before month `m` starts. -/
def monthDaysBefore (y : Nat) : Nat → Nat
  | 0 => 0
  | m + 1 => monthDaysBefore y m + daysInMonth y m

/-- Number of days in year `y`. -/
def daysInYear (y : Nat) : Nat :=
  if isLeap y then 366 else 365

/-- Days elapsed before year `y`, counting from year 0 (closed form). -/
def daysBeforeYear (y : Nat) : Nat :=
  365 * y + (y + 3) / 4 + (y + 399) / 400 - (y + 99) / 100

/-- Day index of a calendar date. -/
def toDays (d : Date) : Nat :=
  daysBeforeYear d.year + monthDaysBefore d.year d.month + (d.day - 1)

/-- Milliseconds per day. -/
def msPerDay : Nat := 86400000

/-- Timestamp (ms) of UTC midnight starting calendar date `d`. -/
def toInstant (d : Date) : Nat :=
  msPerDay * toDays d

/-- The date is a real calendar date. -/
def ValidDate (d : Date) : Prop :=
  1 ≤ d.month ∧ d.month ≤ 12 ∧ 1 ≤ d.day ∧ d.day ≤ daysInMonth d.year d.month

instance (d : Date) : Decidable (ValidDate d) := by
  unfold ValidDate; infer_instance

/-- First day of the calendar month after the month containing `d`. -/
def nextMonthStart (d : Date) : Date :=
  if d.month = 12 then ⟨d.year + 1, 1, 1⟩ else ⟨d.year, d.month + 1, 1⟩

/-- The calendar day after `d`. -/
def nextDay (d : Date) : Date :=
  if d.day < daysInMonth d.year d.month then ⟨d.year, d.month, d.day + 1⟩
  else nextMonthStart d

/-- Half-open time window `[fst, snd)` in ms. -/
abbrev Window := Nat × Nat

/-- Membership in a half-open window (the comparison `filterDate` uses). -/
def inWindow (t : Nat) (w : Window) : Bool :=
  decide (w.1 ≤ t) && decide (t < w.2)

/-- The one-day aggregation window the date slider (period 1 day) hands to
`slide` as `[range.start(), range.end())`. -/
def dayWindowOf (d : Date) : Window :=
  (toInstant d, toInstant d + msPerDay)

/-- `range.start().getRange("month")`: the calendar month containing `d`,
half-open. -/
def monthWindowOf (d : Date) : Window :=
  (toInstant ⟨d.year, d.month, 1⟩, toInstant (nextMonthStart d))

/-- `range.start().getRange("year")`: the calendar year containing `d`,
half-open. -/
def yearWindowOf (d : Date) : Window :=
  (toInstant ⟨d.year, 1, 1⟩, toInstant ⟨d.year + 1, 1, 1⟩)

/-- English month name, as used by the `"MMMM dd, YYYY"` date format. -/
def monthName : Nat → String
  | 1 => "January"
  | 2 => "February"
  | 3 => "March"
  | 4 => "April"
  | 5 => "May"
  | 6 => "June"
  | 7 => "July"
  | 8 => "August"
  | 9 => "September"
  | 10 => "October"
  | 11 => "November"
  | 12 => "December"
  | _ => "Unknown"

/-- Two-digit zero padding. -/
def pad2 (n : Nat) : String :=
  if n < 10 then ("0" ++ toString n) else toString n

/-- The `"MMMM dd, YYYY"` date label format used by `slide`. -/
def formatDate (d : Date) : String :=
  monthName d.month ++ " " ++ pad2 d.day ++ ", " ++ toString d.year

/-- A raster pixel on the integer grid. -/
abbrev Pixel := Int × Int

/-- A single-band raster: the finite set of pixels carrying data, with their
backscatter values.  A pixel absent from the list is masked. -/
abbrev BandData := List (Pixel × Int)

/-- Value of a band raster at a pixel (`none` when masked). -/
def lookupPx : BandData → Pixel → Option Int
  | [], _ => none
  | pv :: rest, p => if pv.1 = p then some pv.2 else lookupPx rest p

/-- One satellite pass of the `COPERNICUS/S1_GRD` archive (`sentinel1`):
acquisition timestamp, orbit pass, polarisation list, instrument mode and
the VH/VV band rasters. -/
structure Observation where
  time : Nat
  pass : String
  polarisations : List String
  instrumentMode : String
  vhData : BandData
  vvData : BandData
deriving DecidableEq, Repr

/-- `vh`: the archive filtered to dual-polarisation (VH and VV)
interferometric-wide-swath observations (RIT.js lines 40-45). -/
def vhFull (arch : List Observation) : List Observation :=
  ((arch.filter (fun o => o.polarisations.contains ("VH"))).filter
      (fun o => o.polarisations.contains ("VV"))).filter
    (fun o => o.instrumentMode == "IW")

/-- `vhA`: the ascending-orbit sub-collection (line 48). -/
def vhAsc (coll : List Observation) : List Observation :=
  coll.filter (fun o => o.pass == "ASCENDING")

/-- `vhD`: the descending-orbit sub-collection (line 49). -/
def vhDesc (coll : List Observation) : List Observation :=
  coll.filter (fun o => o.pass == "DESCENDING")

/-- `filterDate(start, end)`: restrict a collection to the half-open
interval `[s, e)`. -/
def filterDate (coll : List Observation) (s e : Nat) : List Observation :=
  coll.filter (fun o => inWindow o.time (s, e))

/-- `select("VH")` on a collection: the VH band of each observation. -/
def selVH (coll : List Observation) : List BandData :=
  coll.map (fun o => o.vhData)

/-- `select("VV")` on a collection: the VV band of each observation. -/
def selVV (coll : List Observation) : List BandData :=
  coll.map (fun o => o.vvData)

/-- Maximum of a list of values (`none` on the empty list). -/
def listMax : List Int → Option Int
  | [] => none
  | a :: rest =>
    match listMax rest with
    | none => some a
    | some b => some (max a b)

/-- `ImageCollection.max()`: per-pixel maximum across a list of band
rasters, masked where no raster carries data. -/
def bandMax (imgs : List BandData) : Pixel → Option Int :=
  fun p => listMax (imgs.filterMap (fun b => lookupPx b p))

/-- `ee.Image.cat([...])` of three reduced single-band rasters, in the
fixed channel order of RIT.js lines 193-207. -/
structure Composite where
  b1 : Pixel → Option Int
  b2 : Pixel → Option Int
  b3 : Pixel → Option Int

/-- The composite `slide` builds for a window `w` (lines 185-207, used with
the month window and with the year window): channel 1 is the max of the
windowed ascending VH sub-collection, channel 2 the max of the merged
windowed ascending+descending VV collections, channel 3 the max of the
windowed descending VH sub-collection. -/
def compFor (arch : List Observation) (w : Window) : Composite :=
  let cA := filterDate (vhAsc (vhFull arch)) w.1 w.2
  let cD := filterDate (vhDesc (vhFull arch)) w.1 w.2
  { b1 := bandMax (selVH cA)
    b2 := bandMax (selVV cA ++ selVV cD)
    b3 := bandMax (selVH cD) }

/-- `ee.Reducer.max()` over the sample region of size 500 around the
clicked point: maximum of the band values at the raster pixels inside the
region, `none` when no covered pixel falls in it. -/
def inRegion (pt : ℚ × ℚ) (r : ℚ) (px : Pixel) : Bool :=
  decide (((px.1 : ℚ) - pt.1) ^ 2 + ((px.2 : ℚ) - pt.2) ^ 2 ≤ r ^ 2)

/-- Reduce one band raster over the sample region with a maximum. -/
def regionMax (b : BandData) (pt : ℚ × ℚ) (r : ℚ) : Option Int :=
  listMax ((b.filter (fun pv => inRegion pt r pv.1)).map (fun pv => pv.2))

/-- `ui.Chart.image.series(coll.select("VH"), point, ee.Reducer.max(), 500)`
(lines 272-273): one `(timestamp, value)` pair per observation whose VH
band covers the sample region; uncovered observations contribute nothing. -/
def chartSeries (coll : List Observation) (pt : ℚ × ℚ) (r : ℚ) :
    List (Nat × Int) :=
  coll.filterMap (fun o => (regionMax o.vhData pt r).map (fun v => (o.time, v)))

/-- Visualisation parameters handed to `ui.Map.Layer`. -/
structure VisParams where
  visMin : List Int
  visMax : List Int
  visOpacity : ℚ
deriving DecidableEq, Repr

/-- The stretch for the daily layer (line 212). -/
def dailyVis : VisParams := ⟨[-25, -20, -25], [0, 10, 0], 4 / 5⟩

/-- The stretch for the monthly and yearly composite layers (lines 218, 224). -/
def compVis : VisParams := ⟨[-25, -20, -25], [-10, 0, -10], 4 / 5⟩

/-- Trivial visualisation parameters (styled features, annotations). -/
def plainVis : VisParams := ⟨[], [], 1⟩

/-- The Earth Engine object backing a map layer. -/
inductive LayerData
  | image (c : Composite)
  | collection (obs : List Observation)
  | pointData (lon lat : ℚ)
  | annotation (tag : String)

/-- A `ui.Map.Layer`: name, backing object, visibility flag and layer-level
opacity (1 at creation; `setOpacity` mutates it). -/
structure Layer where
  name : String
  data : LayerData
  shown : Bool
  opacity : ℚ
  vis : VisParams

/-- A widget of the inspector panel, as far as the claims observe it. -/
inductive Widget
  | chartW (lon lat : ℚ) (series : List (Nat × Int))
  | textPanel (labels : List String)
  | contactW
  | otherW (tag : String)
deriving DecidableEq

/-- `ActiveList.set(i, a)`: replace the element at `i`, appending when `i`
is the current length (the only growth pattern the app uses). -/
def setL {α : Type} : List α → Nat → α → List α
  | [], _, a => [a]
  | _ :: xs, 0, a => a :: xs
  | x :: xs, n + 1, a => x :: setL xs n a

/-- `ActiveList.get(i)`. -/
def getL {α : Type} : List α → Nat → Option α
  | [], _ => none
  | x :: _, 0 => some x
  | _ :: xs, n + 1 => getL xs n

/-- In-place update of the element at `i` (no-op out of range). -/
def modifyL {α : Type} : List α → Nat → (α → α) → List α
  | [], _, _ => []
  | x :: xs, 0, f => f x :: xs
  | x :: xs, n + 1, f => x :: modifyL xs n f

/-- `widgets().set(i, w)` on the inspector panel, modelled as an
association list from slot index to widget. -/
def setW : List (Nat × Widget) → Nat → Widget → List (Nat × Widget)
  | [], i, w => [(i, w)]
  | (j, x) :: rest, i, w =>
    if j = i then (i, w) :: rest else (j, x) :: setW rest i w

/-- Widget currently at slot `i`. -/
def getW : List (Nat × Widget) → Nat → Option Widget
  | [], _ => none
  | (j, x) :: rest, i => if j = i then some x else getW rest i

/-- The mutable view state of the application: map layers, labels, panel
widgets, slider value, granularity dropdown value, viewport and opacity
slider value. -/
structure AppState where
  layers : List Layer
  dateLabel : String
  imageInfo : String
  lonLat : ℚ × ℚ
  widgets : List (Nat × Widget)
  sliderValue : Option Date
  layerSelectValue : String
  center : ℚ × ℚ × Nat
  opacityValue : ℚ

/-- The `{Day: "daily", Month: "monthly", Year: "yearly"}` dictionary of the
granularity dropdown handler (JS yields `undefined` on any other key). -/
def aggDict (s : String) : Option String :=
  if s = "Day" then some ("daily")
  else if s = "Month" then some ("monthly")
  else if s = "Year" then some ("yearly")
  else none

/-- The informational label text written by the dropdown handler. -/
def infoStringFor (s : String) : String :=
  "You are currently viewing " ++ (aggDict s).getD ("undefined") ++
    " Sentinel-1 imagery from "

/-- `layerSelect.onChange` (lines 113-137): record the new dropdown value,
set each map layer's visibility to whether its name equals the selection,
and (once per layer, hence not at all when there are no layers) rewrite the
informational label. -/
def layerSelectChange (sel : String) (st : AppState) : AppState :=
  { st with
    layerSelectValue := sel
    layers := st.layers.map (fun l => { l with shown := sel == l.name })
    imageInfo := if st.layers.isEmpty then st.imageInfo else infoStringFor sel }

/-- `opacitySlider.onSlide` (lines 147-151): apply the slider value as the
layer-level opacity of every map layer. -/
def opacitySlide (v : ℚ) (st : AppState) : AppState :=
  { st with
    opacityValue := v
    layers := st.layers.map (fun l => { l with opacity := v }) }

/-- The `daily` layer built by `slide` (lines 210-215): the raw collection
filtered to the one-day slider range, no reduction applied. -/
def dailyLayerOf (arch : List Observation) (d : Date) (sel : String) : Layer :=
  { name := "Day"
    data := LayerData.collection
      (filterDate (vhFull arch) (dayWindowOf d).1 (dayWindowOf d).2)
    shown := "Day" == sel
    opacity := 1
    vis := dailyVis }

/-- The `monthly` layer built by `slide` (lines 216-221). -/
def monthlyLayerOf (arch : List Observation) (d : Date) (sel : String) : Layer :=
  { name := "Month"
    data := LayerData.image (compFor arch (monthWindowOf d))
    shown := "Month" == sel
    opacity := 1
    vis := compVis }

/-- The `yearly` layer built by `slide` (lines 222-227). -/
def yearlyLayerOf (arch : List Observation) (d : Date) (sel : String) : Layer :=
  { name := "Year"
    data := LayerData.image (compFor arch (yearWindowOf d))
    shown := "Year" == sel
    opacity := 1
    vis := compVis }

/-- `slide` (lines 177-234): from the slider range anchored at date `d`,
update the date label, build the month and year composites with `getRange`
windows, build the daily raw-collection layer from the one-day range, and
install the three layers at slots 0, 1, 2 with visibility taken from the
granularity dropdown. -/
def slide (arch : List Observation) (d : Date) (st : AppState) : AppState :=
  { st with
    dateLabel := formatDate d
    layers :=
      setL
        (setL (setL st.layers 0 (dailyLayerOf arch d st.layerSelectValue)) 1
          (monthlyLayerOf arch d st.layerSelectValue))
        2 (yearlyLayerOf arch d st.layerSelectValue) }

/-- `dateSlider.setValue` (lines 237-246): store the new value (snapped to
the one-day period) and fire `slide` on its range. -/
def dateSliderChange (arch : List Observation) (d : Date) (st : AppState) :
    AppState :=
  slide arch d { st with sliderValue := some d }

/-- The fixed sample size passed to `ui.Chart.image.series`. -/
def sampleRadius : ℚ := 500

/-- `generateChart` (lines 255-291): update the lon/lat labels, install the
clicked-location dot at layer slot 3, and install the RFI chart of the full
VH collection at widget slot 3. -/
def generateChart (arch : List Observation) (pt : ℚ × ℚ) (st : AppState) :
    AppState :=
  let dot : Layer :=
    { name := "clicked location"
      data := LayerData.pointData pt.1 pt.2
      shown := true
      opacity := 1
      vis := plainVis }
  { st with
    lonLat := pt
    layers := setL st.layers 3 dot
    widgets :=
      setW st.widgets 3 (Widget.chartW pt.1 pt.2 (chartSeries (vhFull arch) pt sampleRadius)) }

/-- Recover the calendar year from a day index (fuel-bounded linear scan). -/
def yearOfDaysAux : Nat → Nat → Nat → Nat × Nat
  | 0, y, ds => (y, ds)
  | fuel + 1, y, ds =>
    if ds < daysInYear y then (y, ds) else yearOfDaysAux fuel (y + 1) (ds - daysInYear y)

/-- Recover the month within a year from a day offset. -/
def monthOfDaysAux : Nat → Nat → Nat → Nat → Nat × Nat
  | 0, _, m, ds => (m, ds)
  | fuel + 1, y, m, ds =>
    if ds < daysInMonth y m then (m, ds) else monthOfDaysAux fuel y (m + 1) (ds - daysInMonth y m)

/-- `ee.Date(t)` snapped to its containing calendar day, as the date slider
does with a millisecond timestamp. -/
def dateOfInstant (t : Nat) : Date :=
  let ds := t / msPerDay
  let yr := yearOfDaysAux (ds + 1) 0 ds
  let mr := monthOfDaysAux 12 yr.1 1 yr.2
  ⟨yr.1, mr.1, mr.2 + 1⟩

/-- `getDate`, the chart click callback (lines 287-290):
`dateSlider.setValue(ee.Date(callback))`. -/
def getDateChartClick (arch : List Observation) (t : Nat) (st : AppState) :
    AppState :=
  dateSliderChange arch (dateOfInstant t) st

/-- A date change issued for a raw timestamp: the slider snaps it to its
day and fires `slide`, exactly as when the slider is set directly. -/
def dateChangeAt (arch : List Observation) (t : Nat) (st : AppState) :
    AppState :=
  dateSliderChange arch (dateOfInstant t) st

/-- `configureExample(text, opacity)` (lines 307-318): hide every map
layer, then show the layers at slots 1 and 3, set the slot-1 layer's
opacity, and install the narrative text panel at widget slot 10 and the
contact panel at slot 11. -/
def configureExample (labels : List String) (op : ℚ) (st : AppState) :
    AppState :=
  let ls := st.layers.map (fun l => { l with shown := false })
  let ls := modifyL ls 1 (fun l => { l with shown := true })
  let ls := modifyL ls 3 (fun l => { l with shown := true })
  let ls := modifyL ls 1 (fun l => { l with opacity := op })
  { st with
    layers := ls
    widgets :=
      setW (setW st.widgets 10 (Widget.textPanel labels)) 11 Widget.contactW }

/-- Narrative labels of the Dammam example (lines 429-442; hyperlink
targets are presentation-layer and omitted). -/
def dammamLabels : List String :=
  [ "This is a MIM-104 Patriot PAC-2 missile defense system stationed at an Aramco oil refinery in Dammam, Saudi Arabia. At the center of the system are three vehicles: the AN/MPQ-53 radar (red), the control station (blue), and the power generator truck (green). The black boxes indicate the missile launcher trucks."
  , "This video provides an overivew of the Patriot missile system."
  , "By gradually zooming out and increasing the opacity of the Synthetic Aperture Radar layer using the slider above, it becomes clear that the radar on this missile defense system causing significant interference with the Sentinel-1 satellite."
  , "The RFI Graph above shows that the radar was first turned on a this location around April 26th, 2021. There is a drop in intereference in July and August, suggesting that it was turned off during this period. The radar comes back online in September, and has been on ever since." ]

/-- `loc1_function` (lines 321-445): append the Patriot-site outline
annotation with `addLayer` (default visibility true, default name from its
1-based position), then run `configureExample` with the four Dammam labels
and opacity 0.1. -/
def loc1Fun (st : AppState) : AppState :=
  let outline : Layer :=
    { name := "Layer " ++ toString (st.layers.length + 1)
      data := LayerData.annotation ("dammam patriot outline")
      shown := true
      opacity := 1
      vis := ⟨[0], [3], 1⟩ }
  configureExample dammamLabels (1 / 10) { st with layers := st.layers ++ [outline] }

/-- Narrative labels of the Dimona example (lines 448-461). -/
def dimonaLabels : List String :=
  [ "Located in Israel\x27s Negev Desert, the Dimona Radar Facility is a \"top-secret X-band radar staffed by around 120 American technicians\"."
  , "The radar can monitor the take-off of any aircraft or missile up to 1,500 miles away, which would give Israel an extra 60-70 seconds to react if Iran fired a missile. The radar is so powerful that Israeli officials feared that RFI would impact the accuracy of anti-tank missiles being tested nearby."
  , "Israel\x27s Negev Nuclear Research Center is located in the same valley, just a few kilometers to the north. The RFI Graph above shows consistent and strong interference since 2017." ]

/-- `loc2_function` (lines 448-462). -/
def loc2Fun (st : AppState) : AppState :=
  configureExample dimonaLabels (4 / 5) st

/-- Narrative labels of the Rostov example (lines 465-476). -/
def rostovLabels : List String :=
  [ "Rostov-On-Don has seen a significant military buildup and hosts the headquarters of Russia\x27s 4th Air and Air Defense Forces Command. The dot indictes a facility that is likely the source of the RFI."
  , "According to Wikimapia, this facility is operated by FEDERAL STATE UNITARY ENTERPRISE \"ROSTOV-ON-DON RESEARCH INSTITUTE OF RADIO COMMUNICATIONS\""
  , "Its official registration lists it as a subsidiary of the Federal Security Services of the Russian Federation (FSB). The RFI graph above shows radar activity throughout June and July 2021. You can view the facility likely causing this interference by zooming in to the blue dot and reducing the opacity using the slider." ]

/-- `loc3_function` (lines 465-479). -/
def loc3Fun (st : AppState) : AppState :=
  configureExample rostovLabels (4 / 5) st

/-- The first narrative label of the White Sands example (lines 483-487). -/
def whiteSandsLabel1 : String :=
  "The White Sands Missile Range (WSMR) is a U.S. Military base located in New Mexico."

/-- The second narrative label of the White Sands example (lines 488-490). -/
def whiteSandsLabel2 : String :=
  "Patriot missiles are often tested at Launch Complex 38. The RFI graph shows significant radar activity on December 14th, 2021, and February 23rd, 2020. Smaller signatures are also visible in April and June 2021, as well as at various points since 2017."

/-- `loc4_function` (lines 482-493): exactly the two White Sands labels,
opacity 0.8. -/
def loc4Fun (st : AppState) : AppState :=
  configureExample [whiteSandsLabel1, whiteSandsLabel2] (4 / 5) st

/-- One entry of the example-location registry. -/
structure ExampleSite where
  lon : ℚ
  lat : ℚ
  zoom : Nat
  date : Date
  func : AppState → AppState

/-- `locationDict` (lines 497-526), keyed by display name. -/
def locationDict (name : String) : Option ExampleSite :=
  if name = "Dammam, Saudi Arabia" then
    some ⟨49949916 / 1000000, 26606379 / 1000000, 19, ⟨2022, 1, 1⟩, loc1Fun⟩
  else if name = "Dimona Radar Facility, Israel" then
    some ⟨350948799 / 10000000, 309685089 / 10000000, 11, ⟨2019, 2, 19⟩, loc2Fun⟩
  else if name = "Rostov-on-Don, Russia" then
    some ⟨39783387 / 1000000, 47354445 / 1000000, 11, ⟨2021, 7, 22⟩, loc3Fun⟩
  else if name = "White Sands Missile Range, USA" then
    some ⟨-1063122 / 10000, 319735 / 10000, 10, ⟨2021, 12, 14⟩, loc4Fun⟩
  else none

/-- `locationSelect.onChange` (lines 530-547): look the site up, move the
viewport to its coordinates and zoom, generate the chart at its
coordinates, set the date slider to its date (firing `slide`), then run the
site's configuration function. -/
def locationSelectChange (arch : List Observation) (name : String)
    (st : AppState) : AppState :=
  match locationDict name with
  | none => st
  | some loc =>
    let st := { st with center := (loc.lon, loc.lat, loc.zoom) }
    let st := generateChart arch (loc.lon, loc.lat) st
    let st := dateSliderChange arch loc.date st
    loc.func st

/-- The inspector panel as assembled at lines 568-589, plus the widget
state before the first chart exists. -/
def initialWidgets : List (Nat × Widget) :=
  [ (0, Widget.otherW ("intro"))
  , (1, Widget.otherW ("dateSlider"))
  , (2, Widget.otherW ("lonLat"))
  , (3, Widget.otherW ("chartPlaceholder"))
  , (4, Widget.otherW ("chartHint"))
  , (5, Widget.otherW ("viewDifferentLayers"))
  , (6, Widget.otherW ("imageInfoAndDate"))
  , (7, Widget.otherW ("aggregationHint"))
  , (8, Widget.otherW ("viewPanel"))
  , (9, Widget.otherW ("locationPanel"))
  , (11, Widget.contactW) ]

/-- The longitude of the initial test point (line 564). -/
def initialPointLon : ℚ := 49950656 / 1000000

/-- The latitude of the initial test point (line 564). -/
def initialPointLat : ℚ := 26605644 / 1000000

/-- The view state before any handler has fired: no map layers yet, the
date label preset from `now`, the monthly info label (line 171), dropdown
value `"Month"` (line 115), opacity slider at 1 (line 144). -/
def initialState (nowD : Date) : AppState :=
  { layers := []
    dateLabel := formatDate nowD
    imageInfo := "You are currently viewing monthly Sentinel-1 imagery from "
    lonLat := (0, 0)
    widgets := initialWidgets
    sliderValue := none
    layerSelectValue := "Month"
    center := (initialPointLon, initialPointLat, 11)
    opacityValue := 1 }

/-- App initialisation (Steps 9-10, lines 554-606): the date slider is set
to `now` (firing `slide`), a chart is generated at the initial test point,
and the monthly layer is shown. -/
def initApp (arch : List Observation) (nowD : Date) : AppState :=
  let st := dateSliderChange arch nowD (initialState nowD)
  let st := generateChart arch (initialPointLon, initialPointLat) st
  { st with layers := modifyL st.layers 1 (fun l => { l with shown := true }) }

/-- Spec-side reading of one composite channel: the per-pixel maximum over
time of the VH band of the orbit-`dir` sub-collection restricted to the
window. -/
def specWindowMaxVH (coll : List Observation) (dir : String) (w : Window)
    (p : Pixel) : Option Int :=
  listMax
    (((coll.filter (fun o => o.pass == dir)).filter
        (fun o => inWindow o.time w)).filterMap (fun o => lookupPx o.vhData p))

/-- Spec-side reading of the middle channel: the per-pixel maximum of the
merged ascending+descending VV collection restricted to the window. -/
def specWindowMaxVVmerged (coll : List Observation) (w : Window) (p : Pixel) :
    Option Int :=
  listMax
    (((vhAsc coll ++ vhDesc coll).filter (fun o => inWindow o.time w)).filterMap
      (fun o => lookupPx o.vvData p))

/-- Channel 1 of the composite backing map layer slot `i` (`none` when the
slot is absent or not a composite). -/
def layerBand1At (st : AppState) (i : Nat) (p : Pixel) : Option Int :=
  match getL st.layers i with
  | some l =>
    match l.data with
    | LayerData.image c => c.b1 p
    | _ => none
  | none => none

/-- Name, visibility and layer-level opacity of each map layer: the
user-facing layer configuration, with raster payloads stripped. -/
def layerFlags (st : AppState) : List (String × Bool × ℚ) :=
  st.layers.map (fun l => (l.name, l.shown, l.opacity))

/-- A two-observation test archive: an early ascending pass covering pixel
(0,0) and a later descending pass with no coverage. -/
def archW : List Observation :=
  [ { time := 1000
      pass := "ASCENDING"
      polarisations := ["VH", "VV"]
      instrumentMode := "IW"
      vhData := [((0, 0), -5)]
      vvData := [((0, 0), -11)] }
  , { time := 2000
      pass := "DESCENDING"
      polarisations := ["VH", "VV"]
      instrumentMode := "IW"
      vhData := []
      vvData := [] } ]

/-- A test observation from 2022-01-05 (outside March 2022). -/
def obsJan : Observation :=
  { time := toInstant ⟨2022, 1, 5⟩
    pass := "ASCENDING"
    polarisations := ["VH", "VV"]
    instrumentMode := "IW"
    vhData := [((0, 0), -7)]
    vvData := [((0, 0), -9)] }

/-- A test observation from 2022-03-05 (inside March 2022). -/
def obsMarch : Observation :=
  { time := toInstant ⟨2022, 3, 5⟩
    pass := "ASCENDING"
    polarisations := ["VH", "VV"]
    instrumentMode := "IW"
    vhData := [((0, 0), -7)]
    vvData := [((0, 0), -9)] }

/-- A placeholder map layer for concrete test states. -/
def demoLayer : Layer :=
  { name := "L"
    data := LayerData.annotation ("demo")
    shown := false
    opacity := 1
    vis := plainVis }

/-- A concrete view state with four map layers. -/
def stDemo : AppState :=
  { initialState ⟨2022, 3, 1⟩ with
    layers := [demoLayer, demoLayer, demoLayer, demoLayer] }

theorem monthDaysBefore_succ (y m : Nat) :
    monthDaysBefore y (m + 1) = monthDaysBefore y m + daysInMonth y m := rfl

theorem monthDaysBefore_one (y : Nat) : monthDaysBefore y 1 = 0 := by
  simp [monthDaysBefore, daysInMonth]

theorem monthDaysBefore_thirteen (y : Nat) :
    monthDaysBefore y 13 = daysInYear y := by
  cases h : isLeap y <;>
    simp [monthDaysBefore, daysInMonth, daysInYear, h]

theorem monthDaysBefore_mono (y : Nat) {m m' : Nat} (h : m ≤ m') :
    monthDaysBefore y m ≤ monthDaysBefore y m' := by
  induction m' with
  | zero =>
    have h0 : m = 0 := Nat.le_zero.mp h
    simp [h0]
  | succ k ih =>
    rcases Nat.lt_or_ge m (k + 1) with hl | hg
    · exact le_trans (ih (Nat.lt_succ_iff.mp hl))
        (by rw [monthDaysBefore_succ]; omega)
    · have he : m = k + 1 := le_antisymm h hg
      rw [he]

theorem daysBeforeYear_succ (y : Nat) :
    daysBeforeYear (y + 1) = daysBeforeYear y + daysInYear y := by
  have h4 : isLeap y = true ↔ ((y % 4 = 0 ∧ ¬ y % 100 = 0) ∨ y % 400 = 0) := by
    simp [isLeap]
  unfold daysBeforeYear daysInYear
  split
  case isTrue hl =>
    have hc : (y % 4 = 0 ∧ ¬ y % 100 = 0) ∨ y % 400 = 0 := h4.mp hl
    omega
  case isFalse hl =>
    have hc : ¬ ((y % 4 = 0 ∧ ¬ y % 100 = 0) ∨ y % 400 = 0) :=
      fun hp => hl (h4.mpr hp)
    omega

theorem toDays_def (d : Date) :
    toDays d = daysBeforeYear d.year + monthDaysBefore d.year d.month + (d.day - 1) := rfl

theorem toDays_nextMonthStart (d : Date) (h : ValidDate d) :
    toDays (nextMonthStart d) =
      daysBeforeYear d.year + monthDaysBefore d.year d.month +
        daysInMonth d.year d.month := by
  rcases h with ⟨h1, h2, h3, h4⟩
  unfold nextMonthStart
  split
  case isTrue hm =>
    have e1 : toDays ⟨d.year + 1, 1, 1⟩ = daysBeforeYear (d.year + 1) := by
      simp [toDays, monthDaysBefore_one]
    have e2 : monthDaysBefore d.year 12 + daysInMonth d.year 12 =
        daysInYear d.year := by
      rw [← monthDaysBefore_succ]
      exact monthDaysBefore_thirteen d.year
    rw [e1, daysBeforeYear_succ, hm] at *
    omega
  case isFalse hm =>
    simp only [toDays, monthDaysBefore_succ]
    omega

theorem toDays_nextDay (d : Date) (h : ValidDate d) :
    toDays (nextDay d) = toDays d + 1 := by
  have hnm := toDays_nextMonthStart d h
  rcases h with ⟨h1, h2, h3, h4⟩
  unfold nextDay
  split
  case isTrue hlt =>
    simp only [toDays_def]
    omega
  case isFalse hge =>
    have hd : d.day = daysInMonth d.year d.month := by omega
    rw [hnm]
    simp only [toDays_def]
    omega

theorem toDays_yearStart (d : Date) :
    toDays ⟨d.year, 1, 1⟩ = daysBeforeYear d.year := by
  simp [toDays, monthDaysBefore_one]

theorem toDays_lt_nextYearStart (d : Date) (h : ValidDate d) :
    toDays d < toDays ⟨d.year + 1, 1, 1⟩ := by
  have hy : toDays ⟨d.year + 1, 1, 1⟩ = daysBeforeYear (d.year + 1) := by
    simp [toDays, monthDaysBefore_one]
  have hmono : monthDaysBefore d.year (d.month + 1) ≤ monthDaysBefore d.year 13 :=
    monthDaysBefore_mono d.year (by rcases h with ⟨_, h2, _, _⟩; omega)
  rcases h with ⟨h1, h2, h3, h4⟩
  rw [hy, daysBeforeYear_succ, ← monthDaysBefore_thirteen]
  rw [monthDaysBefore_succ] at hmono
  simp only [toDays_def]
  omega

/-- Claim C1: for every valid anchor date, the day window is exactly
`[anchor, next calendar day)`, the month window is
`[first of month, first of next month)` and the year window is
`[Jan 1, next Jan 1)`; each contains the anchor instant, each is half-open
on the end, and each has the exact canonical width; in particular the year
window of 2018-06-10 is `[2018-01-01, 2019-01-01)`. -/
theorem c1_windows_canonical (d : Date) (h : ValidDate d) :
    (inWindow (toInstant d) (dayWindowOf d) = true
      ∧ (dayWindowOf d).1 = toInstant d
      ∧ (dayWindowOf d).2 = toInstant (nextDay d)
      ∧ (dayWindowOf d).2 - (dayWindowOf d).1 = msPerDay)
    ∧ (inWindow (toInstant d) (monthWindowOf d) = true
      ∧ (monthWindowOf d).1 = toInstant ⟨d.year, d.month, 1⟩
      ∧ (monthWindowOf d).2 = toInstant (nextMonthStart d)
      ∧ (monthWindowOf d).2 - (monthWindowOf d).1 =
          msPerDay * daysInMonth d.year d.month)
    ∧ (inWindow (toInstant d) (yearWindowOf d) = true
      ∧ (yearWindowOf d).1 = toInstant ⟨d.year, 1, 1⟩
      ∧ (yearWindowOf d).2 = toInstant ⟨d.year + 1, 1, 1⟩
      ∧ (yearWindowOf d).2 - (yearWindowOf d).1 = msPerDay * daysInYear d.year)
    ∧ (∀ t : Nat, ∀ w : Window, inWindow t w = true ↔ w.1 ≤ t ∧ t < w.2)
    ∧ (∀ w : Window, inWindow w.2 w = false)
    ∧ yearWindowOf ⟨2018, 6, 10⟩ = (toInstant ⟨2018, 1, 1⟩, toInstant ⟨2019, 1, 1⟩) := by
  have hnd := toDays_nextDay d h
  have hnm := toDays_nextMonthStart d h
  have hys := toDays_yearStart d
  have hlty := toDays_lt_nextYearStart d h
  have hy1 : toDays (⟨d.year + 1, 1, 1⟩ : Date) = daysBeforeYear (d.year + 1) := by
    simp [toDays, monthDaysBefore_one]
  have hms : toDays ⟨d.year, d.month, 1⟩ =
      daysBeforeYear d.year + monthDaysBefore d.year d.month := by
    simp only [toDays_def]
    omega
  have hle1 : toDays ⟨d.year, d.month, 1⟩ ≤ toDays d := by
    simp only [toDays_def]
    omega
  have hlt1 : toDays d < toDays (nextMonthStart d) := by
    rcases h with ⟨h1, h2, h3, h4⟩
    rw [hnm]
    simp only [toDays_def]
    omega
  have hle2 : toDays ⟨d.year, 1, 1⟩ ≤ toDays d := by
    rw [hys]
    simp only [toDays_def]
    omega
  refine ⟨⟨?_, rfl, ?_, ?_⟩, ⟨?_, rfl, rfl, ?_⟩, ⟨?_, rfl, rfl, ?_⟩, ?_, ?_, rfl⟩
  · simp only [inWindow, dayWindowOf, Bool.and_eq_true, decide_eq_true_iff]
    unfold msPerDay
    omega
  · simp only [dayWindowOf, toInstant, hnd]
    ring
  · simp only [dayWindowOf]
    omega
  · simp only [inWindow, monthWindowOf, Bool.and_eq_true, decide_eq_true_iff,
      toInstant]
    unfold msPerDay
    omega
  · simp only [monthWindowOf, toInstant, hnm, hms]
    unfold msPerDay
    generalize daysBeforeYear d.year = A
    generalize monthDaysBefore d.year d.month = B
    omega
  · simp only [inWindow, yearWindowOf, Bool.and_eq_true, decide_eq_true_iff,
      toInstant]
    have := hy1 ▸ hlty
    unfold msPerDay
    omega
  · simp only [yearWindowOf, toInstant, hys, hy1, daysBeforeYear_succ]
    unfold msPerDay
    generalize daysBeforeYear d.year = A
    generalize daysInYear d.year = B
    omega
  · intro t w
    simp [inWindow]
  · intro w
    simp [inWindow]

/-- Witness for C1 at the spec scenario anchor 2018-06-10. -/
theorem c1_windows_canonical_witness :
    ValidDate ⟨2018, 6, 10⟩
      ∧ inWindow (toInstant ⟨2018, 6, 10⟩) (yearWindowOf ⟨2018, 6, 10⟩) = true :=
  ⟨by decide, (c1_windows_canonical ⟨2018, 6, 10⟩ (by decide)).2.2.1.1⟩

theorem length_setL {α : Type} (xs : List α) (i : Nat) (a : α) :
    (setL xs i a).length = if i < xs.length then xs.length else xs.length + 1 := by
  induction xs generalizing i with
  | nil => cases i <;> simp [setL]
  | cons x rest ih =>
    cases i with
    | zero => simp [setL]
    | succ n =>
      simp only [setL, List.length_cons, ih]
      split <;> split <;> omega

theorem one_le_length_setL {α : Type} (xs : List α) (i : Nat) (a : α) :
    1 ≤ (setL xs i a).length := by
  rw [length_setL]
  split <;> omega

theorem getL_setL_self {α : Type} (xs : List α) (i : Nat) (a : α)
    (h : i ≤ xs.length) : getL (setL xs i a) i = some a := by
  induction xs generalizing i with
  | nil =>
    have h0 : i = 0 := by simpa using h
    subst h0
    rfl
  | cons x rest ih =>
    cases i with
    | zero => rfl
    | succ n => exact ih n (by simpa using h)

theorem getL_setL_ne {α : Type} (xs : List α) (i j : Nat) (a : α) (hij : i ≠ j)
    (hj : j ≤ xs.length) : getL (setL xs j a) i = getL xs i := by
  induction xs generalizing i j with
  | nil =>
    have h0 : j = 0 := by simpa using hj
    subst h0
    cases i with
    | zero => exact absurd rfl hij
    | succ n => rfl
  | cons x rest ih =>
    cases j with
    | zero =>
      cases i with
      | zero => exact absurd rfl hij
      | succ n => rfl
    | succ m =>
      cases i with
      | zero => rfl
      | succ n => exact ih n m (fun he => hij (by omega)) (by simpa using hj)

theorem length_modifyL {α : Type} (xs : List α) (i : Nat) (f : α → α) :
    (modifyL xs i f).length = xs.length := by
  induction xs generalizing i with
  | nil => rfl
  | cons x rest ih => cases i <;> simp [modifyL, ih]

theorem getL_modifyL_self {α : Type} (xs : List α) (i : Nat) (f : α → α) :
    getL (modifyL xs i f) i = (getL xs i).map f := by
  induction xs generalizing i with
  | nil => rfl
  | cons x rest ih => cases i <;> simp [modifyL, getL, ih]

theorem getL_modifyL_ne {α : Type} (xs : List α) (i j : Nat) (f : α → α)
    (hij : i ≠ j) : getL (modifyL xs j f) i = getL xs i := by
  induction xs generalizing i j with
  | nil => rfl
  | cons x rest ih =>
    cases j with
    | zero =>
      cases i with
      | zero => exact absurd rfl hij
      | succ n => rfl
    | succ m =>
      cases i with
      | zero => rfl
      | succ n => exact ih n m (fun he => hij (by omega))

theorem getL_map {α β : Type} (f : α → β) (xs : List α) (i : Nat) :
    getL (xs.map f) i = (getL xs i).map f := by
  induction xs generalizing i with
  | nil => rfl
  | cons x rest ih => cases i <;> simp [getL, ih]

theorem getL_concat_self {α : Type} (xs : List α) (a : α) :
    getL (xs ++ [a]) xs.length = some a := by
  induction xs with
  | nil => rfl
  | cons x rest ih => simpa using ih

theorem getW_setW_self (ws : List (Nat × Widget)) (i : Nat) (w : Widget) :
    getW (setW ws i w) i = some w := by
  induction ws with
  | nil => simp [setW, getW]
  | cons p rest ih =>
    obtain ⟨a, b⟩ := p
    by_cases hp : a = i
    · simp [setW, getW, hp]
    · simp [setW, getW, hp, ih]

theorem getW_setW_ne (ws : List (Nat × Widget)) (i j : Nat) (w : Widget)
    (hij : i ≠ j) : getW (setW ws j w) i = getW ws i := by
  induction ws with
  | nil =>
    simp only [setW, getW]
    rw [if_neg (fun h => hij h.symm)]
  | cons p rest ih =>
    obtain ⟨a, b⟩ := p
    by_cases hp : a = j
    · simp only [setW, if_pos hp, getW]
      rw [if_neg (fun h => hij h.symm), if_neg (fun h => hij (h.symm.trans hp))]
    · simp only [setW, if_neg hp, getW, ih]

theorem slide_layers_get (arch : List Observation) (d : Date) (st : AppState) :
    getL (slide arch d st).layers 0 = some (dailyLayerOf arch d st.layerSelectValue)
    ∧ getL (slide arch d st).layers 1 = some (monthlyLayerOf arch d st.layerSelectValue)
    ∧ getL (slide arch d st).layers 2 = some (yearlyLayerOf arch d st.layerSelectValue) := by
  have l1 : 1 ≤ (setL st.layers 0 (dailyLayerOf arch d st.layerSelectValue)).length :=
    one_le_length_setL _ _ _
  have l2 : 2 ≤ (setL (setL st.layers 0 (dailyLayerOf arch d st.layerSelectValue)) 1
      (monthlyLayerOf arch d st.layerSelectValue)).length := by
    rw [length_setL]
    split <;> omega
  refine ⟨?_, ?_, ?_⟩
  · show getL (setL (setL (setL st.layers 0 _) 1 _) 2 _) 0 = _
    rw [getL_setL_ne _ 0 2 _ (by omega) l2,
      getL_setL_ne _ 0 1 _ (by omega) l1,
      getL_setL_self _ 0 _ (by omega)]
  · show getL (setL (setL (setL st.layers 0 _) 1 _) 2 _) 1 = _
    rw [getL_setL_ne _ 1 2 _ (by omega) l2, getL_setL_self _ 1 _ l1]
  · show getL (setL (setL (setL st.layers 0 _) 1 _) 2 _) 2 = _
    rw [getL_setL_self _ 2 _ l2]

theorem compFor_b1_eq (arch : List Observation) (w : Window) (p : Pixel) :
    (compFor arch w).b1 p = specWindowMaxVH (vhFull arch) ("ASCENDING") w p := by
  simp only [compFor, bandMax, selVH, specWindowMaxVH, vhAsc, filterDate,
    List.filterMap_map, List.filter_filter]
  rfl

theorem compFor_b2_eq (arch : List Observation) (w : Window) (p : Pixel) :
    (compFor arch w).b2 p = specWindowMaxVVmerged (vhFull arch) w p := by
  simp only [compFor, bandMax, selVV, specWindowMaxVVmerged, vhAsc, vhDesc,
    filterDate, List.filter_append, List.filterMap_append, List.filterMap_map,
    List.filter_filter]
  rfl

theorem compFor_b3_eq (arch : List Observation) (w : Window) (p : Pixel) :
    (compFor arch w).b3 p = specWindowMaxVH (vhFull arch) ("DESCENDING") w p := by
  simp only [compFor, bandMax, selVH, specWindowMaxVH, vhDesc, filterDate,
    List.filterMap_map, List.filter_filter]
  rfl

/-- Claim C2: on every date change, `slide` installs at slots 1 and 2 a
3-band composite for the month window and the year window respectively,
whose channels are, in order: the per-pixel max over time of the windowed
ascending VH sub-collection, the per-pixel max of the windowed merged
ascending+descending VV collection, and the per-pixel max of the windowed
descending VH sub-collection. -/
theorem c2_composite_channel_order (arch : List Observation) (d : Date)
    (st : AppState) (p : Pixel) :
    ((getL (slide arch d st).layers 1).map Layer.data
        = some (LayerData.image (compFor arch (monthWindowOf d)))
      ∧ (getL (slide arch d st).layers 2).map Layer.data
        = some (LayerData.image (compFor arch (yearWindowOf d))))
    ∧ ∀ w : Window,
        (compFor arch w).b1 p = specWindowMaxVH (vhFull arch) ("ASCENDING") w p
        ∧ (compFor arch w).b2 p = specWindowMaxVVmerged (vhFull arch) w p
        ∧ (compFor arch w).b3 p = specWindowMaxVH (vhFull arch) ("DESCENDING") w p := by
  obtain ⟨h0, h1, h2⟩ := slide_layers_get arch d st
  refine ⟨⟨?_, ?_⟩, fun w => ⟨compFor_b1_eq arch w p, compFor_b2_eq arch w p,
    compFor_b3_eq arch w p⟩⟩
  · rw [h1]
    rfl
  · rw [h2]
    rfl

/-- Claim C3: on every date change, the layer installed at slot 0 for
granularity Day is the raw collection filtered to the one-day window,
passed through unreduced: its backing object is the plain sub-list of the
archive inside the window, every element an unmodified archive
observation. -/
theorem c3_day_layer_raw (arch : List Observation) (d : Date) (st : AppState) :
    (getL (slide arch d st).layers 0).map Layer.data
      = some (LayerData.collection
          (filterDate (vhFull arch) (dayWindowOf d).1 (dayWindowOf d).2))
    ∧ (getL (slide arch d st).layers 0).map Layer.name = some ("Day")
    ∧ List.Sublist (filterDate (vhFull arch) (dayWindowOf d).1 (dayWindowOf d).2) (vhFull arch)
    ∧ ∀ o : Observation,
        o ∈ filterDate (vhFull arch) (dayWindowOf d).1 (dayWindowOf d).2
          ↔ o ∈ vhFull arch ∧ inWindow o.time (dayWindowOf d) = true := by
  obtain ⟨h0, h1, h2⟩ := slide_layers_get arch d st
  refine ⟨by rw [h0]; rfl, by rw [h0]; rfl, List.filter_sublist _, fun o => ?_⟩
  simp [filterDate, List.mem_filter]

theorem pairwise_time_unique {l : List Observation}
    (h : l.Pairwise (fun a b => a.time < b.time)) :
    ∀ a, a ∈ l → ∀ b, b ∈ l → a.time = b.time → a = b := by
  induction l with
  | nil =>
    intro a ha
    exact absurd ha (List.not_mem_nil a)
  | cons x rest ih =>
    rcases List.pairwise_cons.mp h with ⟨hx, hrest⟩
    intro a ha b hb hab
    rcases List.mem_cons.mp ha with ha1 | ha2
    · rcases List.mem_cons.mp hb with hb1 | hb2
      · rw [ha1, hb1]
      · subst ha1
        have := hx b hb2
        omega
    · rcases List.mem_cons.mp hb with hb1 | hb2
      · subst hb1
        have := hx a ha2
        omega
      · exact ih hrest a ha2 b hb2 hab

/-- Claim C4: the chart installed by a map click at widget slot 3 is the
series of the full dual-polarisation interferometric-wide-swath VH
collection (the whole archive, not restricted to the current window),
reduced with a maximum over the sample region of size 500 around the
point: one (timestamp, value) pair per covering observation, strictly
increasing in timestamp when the archive is strictly time-ordered, with
uncovered observations omitted rather than zero-filled. -/
theorem c4_chart_series (arch : List Observation) (pt : ℚ × ℚ) (st : AppState)
    (hs : (vhFull arch).Pairwise (fun a b => a.time < b.time)) :
    (getW (generateChart arch pt st).widgets 3
        = some (Widget.chartW pt.1 pt.2 (chartSeries (vhFull arch) pt sampleRadius)))
    ∧ (∀ st' : AppState, getW (generateChart arch pt st').widgets 3
        = some (Widget.chartW pt.1 pt.2 (chartSeries (vhFull arch) pt sampleRadius)))
    ∧ (chartSeries (vhFull arch) pt sampleRadius).Pairwise (fun a b => a.1 < b.1)
    ∧ (∀ o, o ∈ vhFull arch → ∀ v : Int,
        regionMax o.vhData pt sampleRadius = some v
          → (o.time, v) ∈ chartSeries (vhFull arch) pt sampleRadius)
    ∧ (∀ o, o ∈ vhFull arch → regionMax o.vhData pt sampleRadius = none
        → o.time ∉ (chartSeries (vhFull arch) pt sampleRadius).map Prod.fst)
    ∧ (∀ e, e ∈ chartSeries (vhFull arch) pt sampleRadius
        → ∃ o, o ∈ vhFull arch ∧ e.1 = o.time
            ∧ regionMax o.vhData pt sampleRadius = some e.2) := by
  refine ⟨?_, ?_, ?_, ?_, ?_, ?_⟩
  · simp only [generateChart]
    exact getW_setW_self _ _ _
  · intro st'
    simp only [generateChart]
    exact getW_setW_self _ _ _
  · unfold chartSeries
    rw [List.pairwise_filterMap]
    refine hs.imp_of_mem ?_
    intro a b ha hb hlt x hx y hy
    rcases Option.map_eq_some'.mp hx with ⟨va, hva, hxa⟩
    rcases Option.map_eq_some'.mp hy with ⟨vb, hvb, hyb⟩
    rw [← hxa, ← hyb]
    exact hlt
  · intro o ho v hv
    unfold chartSeries
    exact List.mem_filterMap.mpr ⟨o, ho, by rw [hv]; rfl⟩
  · intro o ho hnone hmem
    rcases List.mem_map.mp hmem with ⟨e, he, hfst⟩
    rcases List.mem_filterMap.mp he with ⟨o2, ho2, hfo2⟩
    rcases Option.map_eq_some'.mp hfo2 with ⟨v, hv, hev⟩
    have ht : o2.time = o.time := by rw [← hfst, ← hev]
    have : o2 = o := pairwise_time_unique hs o2 ho2 o ho ht
    rw [this] at hv
    rw [hv] at hnone
    exact Option.noConfusion hnone
  · intro e he
    rcases List.mem_filterMap.mp he with ⟨o, ho, hfo⟩
    rcases Option.map_eq_some'.mp hfo with ⟨v, hv, hev⟩
    refine ⟨o, ho, ?_, ?_⟩
    · rw [← hev]
    · rw [hv, ← hev]

/-- Witness for C4 on a concrete two-pass archive: the covering pass
appears, the uncovered one is omitted, and the series is strictly
increasing. -/
theorem c4_chart_series_witness :
    (vhFull archW).Pairwise (fun a b => a.time < b.time)
      ∧ (chartSeries (vhFull archW) (0, 0) sampleRadius).Pairwise
          (fun a b => a.1 < b.1) :=
  ⟨by decide, (c4_chart_series archW (0, 0) (initialState ⟨2022, 3, 1⟩)
    (by decide)).2.2.1⟩

/-- Claim C5 (amended): a granularity change recomputes nothing (every
layer's backing object, opacity and visualisation parameters are
unchanged), updates the informational label, and leaves the date label,
slider value, widgets, viewport and opacity-slider value unchanged; but it
sets every map layer's visibility to whether its name equals the selected
granularity, so the clicked-location marker and any annotation layers are
hidden rather than left as they were. -/
theorem c5_granularity_switch_amended (sel : String) (st : AppState) :
    (∀ i, (getL (layerSelectChange sel st).layers i).map Layer.data
        = (getL st.layers i).map Layer.data)
    ∧ (∀ i, (getL (layerSelectChange sel st).layers i).map Layer.opacity
        = (getL st.layers i).map Layer.opacity)
    ∧ (∀ i, (getL (layerSelectChange sel st).layers i).map Layer.vis
        = (getL st.layers i).map Layer.vis)
    ∧ (∀ i, (getL (layerSelectChange sel st).layers i).map Layer.name
        = (getL st.layers i).map Layer.name)
    ∧ (∀ i, (getL (layerSelectChange sel st).layers i).map Layer.shown
        = (getL st.layers i).map (fun l => sel == l.name))
    ∧ (layerSelectChange sel st).imageInfo
        = (if st.layers.isEmpty then st.imageInfo else infoStringFor sel)
    ∧ (layerSelectChange sel st).dateLabel = st.dateLabel
    ∧ (layerSelectChange sel st).sliderValue = st.sliderValue
    ∧ (layerSelectChange sel st).widgets = st.widgets
    ∧ (layerSelectChange sel st).center = st.center
    ∧ (layerSelectChange sel st).opacityValue = st.opacityValue
    ∧ (layerSelectChange sel st).lonLat = st.lonLat
    ∧ (layerSelectChange sel st).layerSelectValue = sel := by
  refine ⟨?_, ?_, ?_, ?_, ?_, rfl, rfl, rfl, rfl, rfl, rfl, rfl, rfl⟩ <;>
    · intro i
      simp only [layerSelectChange, getL_map]
      cases getL st.layers i <;> rfl

/-- Counterexample to C5 as stated: from the freshly initialised app (where
the clicked-location marker at layer slot 3 is visible), switching the
granularity dropdown from Month to Day hides the marker, so the transition
does not leave everything but the three granularity layers unchanged. -/
theorem c5_granularity_switch_counterexample :
    (getL (initApp [] ⟨2022, 3, 1⟩).layers 3).map Layer.name
        = some ("clicked location")
    ∧ (getL (initApp [] ⟨2022, 3, 1⟩).layers 3).map Layer.shown = some true
    ∧ (getL (layerSelectChange ("Day") (initApp [] ⟨2022, 3, 1⟩)).layers 3).map
        Layer.shown = some false := by
  refine ⟨?_, ?_, ?_⟩ <;> decide

/-- Claim C6: clicking a chart point with timestamp `t` runs
`dateSlider.setValue(ee.Date(t))`, which is the very transition a date
change to `t` performs; the resulting view states are identical - same
recomputed layers, same displayed date, same granularity selection. -/
theorem c6_chart_click_is_date_change (arch : List Observation) (t : Nat)
    (st : AppState) :
    getDateChartClick arch t st = dateChangeAt arch t st
    ∧ (getDateChartClick arch t st).layers = (dateChangeAt arch t st).layers
    ∧ (getDateChartClick arch t st).dateLabel = formatDate (dateOfInstant t)
    ∧ (getDateChartClick arch t st).sliderValue = some (dateOfInstant t)
    ∧ (getDateChartClick arch t st).layerSelectValue = st.layerSelectValue :=
  ⟨rfl, rfl, rfl, rfl, rfl⟩

theorem filterDate_eq_nil {coll : List Observation} {w : Window}
    (h : ∀ o, o ∈ coll → inWindow o.time w = false) :
    filterDate coll w.1 w.2 = [] := by
  unfold filterDate
  apply List.filter_eq_nil_iff.mpr
  intro o ho
  simp [h o ho]

/-- Claim C8 (amended): when a window matches zero observations, `slide`
neither crashes nor flags anything: it still installs the composite layers,
every composite band is everywhere masked (`none`, the per-pixel max of an
empty collection, which differs from an all-zero raster only in the pixel
values themselves), and no label, widget or other state component carries
any empty indication. -/
theorem c8_empty_window_amended (arch : List Observation) (d : Date)
    (st : AppState) (p : Pixel)
    (hm : ∀ o, o ∈ vhFull arch → inWindow o.time (monthWindowOf d) = false)
    (hy : ∀ o, o ∈ vhFull arch → inWindow o.time (yearWindowOf d) = false) :
    ((getL (slide arch d st).layers 1).map Layer.data
        = some (LayerData.image (compFor arch (monthWindowOf d))))
    ∧ ((getL (slide arch d st).layers 2).map Layer.data
        = some (LayerData.image (compFor arch (yearWindowOf d))))
    ∧ (compFor arch (monthWindowOf d)).b1 p = none
    ∧ (compFor arch (monthWindowOf d)).b2 p = none
    ∧ (compFor arch (monthWindowOf d)).b3 p = none
    ∧ (compFor arch (yearWindowOf d)).b1 p = none
    ∧ (compFor arch (yearWindowOf d)).b2 p = none
    ∧ (compFor arch (yearWindowOf d)).b3 p = none
    ∧ (slide arch d st).imageInfo = st.imageInfo
    ∧ (slide arch d st).widgets = st.widgets
    ∧ (slide arch d st).dateLabel = formatDate d
    ∧ ((none : Option Int) ≠ some 0) := by
  have hmA : filterDate (vhAsc (vhFull arch)) (monthWindowOf d).1 (monthWindowOf d).2 = [] :=
    filterDate_eq_nil (fun o ho => hm o (List.mem_of_mem_filter ho))
  have hmD : filterDate (vhDesc (vhFull arch)) (monthWindowOf d).1 (monthWindowOf d).2 = [] :=
    filterDate_eq_nil (fun o ho => hm o (List.mem_of_mem_filter ho))
  have hyA : filterDate (vhAsc (vhFull arch)) (yearWindowOf d).1 (yearWindowOf d).2 = [] :=
    filterDate_eq_nil (fun o ho => hy o (List.mem_of_mem_filter ho))
  have hyD : filterDate (vhDesc (vhFull arch)) (yearWindowOf d).1 (yearWindowOf d).2 = [] :=
    filterDate_eq_nil (fun o ho => hy o (List.mem_of_mem_filter ho))
  obtain ⟨g0, g1, g2⟩ := slide_layers_get arch d st
  refine ⟨by rw [g1]; rfl, by rw [g2]; rfl, ?_, ?_, ?_, ?_, ?_, ?_, rfl, rfl, rfl,
    fun he => Option.noConfusion he⟩ <;>
    simp [compFor, hmA, hmD, hyA, hyD, selVH, selVV, bandMax, listMax]

/-- Witness for C8 (amended): with the empty archive, both windows of the
anchor 2022-03-01 match nothing, and the monthly composite is masked. -/
theorem c8_empty_window_amended_witness :
    (∀ o, o ∈ vhFull [] → inWindow o.time (monthWindowOf ⟨2022, 3, 1⟩) = false)
    ∧ (compFor [] (monthWindowOf ⟨2022, 3, 1⟩)).b1 (0, 0) = none :=
  ⟨by decide, (c8_empty_window_amended [] ⟨2022, 3, 1⟩ (initialState ⟨2022, 3, 1⟩)
    (0, 0) (by decide) (by decide)).2.2.1⟩

/-- Counterexample to C8 as stated: with the March 2022 anchor, an archive
whose only pass is from January (month window empty) and one whose only
pass is from March (month window non-empty) produce view states with
identical layer flags, labels and widgets - nothing flags the empty case or
surfaces a "no data" state; only the raster payload differs (masked versus
a value). -/
theorem c8_no_empty_flag_counterexample :
    filterDate (vhFull [obsJan]) (monthWindowOf ⟨2022, 3, 1⟩).1
        (monthWindowOf ⟨2022, 3, 1⟩).2 = []
    ∧ layerFlags (slide [obsJan] ⟨2022, 3, 1⟩ (initialState ⟨2022, 3, 1⟩))
        = layerFlags (slide [obsMarch] ⟨2022, 3, 1⟩ (initialState ⟨2022, 3, 1⟩))
    ∧ (slide [obsJan] ⟨2022, 3, 1⟩ (initialState ⟨2022, 3, 1⟩)).imageInfo
        = (slide [obsMarch] ⟨2022, 3, 1⟩ (initialState ⟨2022, 3, 1⟩)).imageInfo
    ∧ (slide [obsJan] ⟨2022, 3, 1⟩ (initialState ⟨2022, 3, 1⟩)).dateLabel
        = (slide [obsMarch] ⟨2022, 3, 1⟩ (initialState ⟨2022, 3, 1⟩)).dateLabel
    ∧ (slide [obsJan] ⟨2022, 3, 1⟩ (initialState ⟨2022, 3, 1⟩)).widgets
        = (slide [obsMarch] ⟨2022, 3, 1⟩ (initialState ⟨2022, 3, 1⟩)).widgets
    ∧ layerBand1At (slide [obsJan] ⟨2022, 3, 1⟩ (initialState ⟨2022, 3, 1⟩)) 1 (0, 0)
        = none
    ∧ layerBand1At (slide [obsMarch] ⟨2022, 3, 1⟩ (initialState ⟨2022, 3, 1⟩)) 1 (0, 0)
        = some (-7) := by
  refine ⟨?_, ?_, ?_, ?_, ?_, ?_, ?_⟩ <;> decide

theorem getL_lt_length {α : Type} (xs : List α) (i : Nat) (h : i < xs.length) :
    ∃ a, getL xs i = some a := by
  induction xs generalizing i with
  | nil => simp at h
  | cons x rest ih =>
    cases i with
    | zero => exact ⟨x, rfl⟩
    | succ n => exact ih n (by simpa using h)

theorem configureExample_layers_get (labels : List String) (op : ℚ)
    (st : AppState) (i : Nat) :
    getL (configureExample labels op st).layers i
      = (getL st.layers i).map (fun l =>
          { l with
            shown := decide (i = 1 ∨ i = 3)
            opacity := if i = 1 then op else l.opacity }) := by
  by_cases h1 : i = 1
  · subst h1
    simp only [configureExample, getL_modifyL_self,
      getL_modifyL_ne _ 1 3 _ (by omega), getL_map]
    cases getL st.layers 1
    · rfl
    · rfl
  · by_cases h3 : i = 3
    · subst h3
      simp only [configureExample, getL_modifyL_self,
        getL_modifyL_ne _ 3 1 _ (by omega), getL_map]
      cases getL st.layers 3
      · rfl
      · rfl
    · simp only [configureExample, getL_modifyL_ne _ i 1 _ h1,
        getL_modifyL_ne _ i 3 _ h3, getL_map]
      have hd : decide (i = 1 ∨ i = 3) = false := decide_eq_false (by tauto)
      simp only [hd]
      cases getL st.layers i
      · rfl
      · simp only [Option.map_some']
        rw [if_neg h1]

theorem configureExample_widgets_get (labels : List String) (op : ℚ)
    (st : AppState) (i : Nat) :
    getW (configureExample labels op st).widgets i
      = if i = 11 then some Widget.contactW
        else if i = 10 then some (Widget.textPanel labels)
        else getW st.widgets i := by
  by_cases h11 : i = 11
  · subst h11
    simp only [configureExample, getW_setW_self]
    rfl
  · by_cases h10 : i = 10
    · subst h10
      simp only [configureExample]
      rw [getW_setW_ne _ 10 11 _ (by omega), getW_setW_self]
      rfl
    · simp only [configureExample]
      rw [getW_setW_ne _ i 11 _ h11, getW_setW_ne _ i 10 _ h10,
        if_neg h11, if_neg h10]

theorem configureExample_layers_length (labels : List String) (op : ℚ)
    (st : AppState) :
    (configureExample labels op st).layers.length = st.layers.length := by
  simp [configureExample, length_modifyL]

theorem slide_layers_get_high (arch : List Observation) (d : Date)
    (st : AppState) (i : Nat) (hi : 3 ≤ i) :
    getL (slide arch d st).layers i = getL st.layers i := by
  have l1 : 1 ≤ (setL st.layers 0 (dailyLayerOf arch d st.layerSelectValue)).length :=
    one_le_length_setL _ _ _
  have l2 : 2 ≤ (setL (setL st.layers 0 (dailyLayerOf arch d st.layerSelectValue)) 1
      (monthlyLayerOf arch d st.layerSelectValue)).length := by
    rw [length_setL]
    split <;> omega
  show getL (setL (setL (setL st.layers 0 _) 1 _) 2 _) i = getL st.layers i
  rw [getL_setL_ne _ i 2 _ (by omega) l2,
    getL_setL_ne _ i 1 _ (by omega) l1,
    getL_setL_ne _ i 0 _ (by omega) (Nat.zero_le _)]

theorem locationSelectChange_ws (arch : List Observation) (st : AppState) :
    locationSelectChange arch ("White Sands Missile Range, USA") st
      = loc4Fun (dateSliderChange arch ⟨2021, 12, 14⟩
          (generateChart arch ((-1063122 : ℚ) / 10000, (319735 : ℚ) / 10000)
            { st with
              center := ((-1063122 : ℚ) / 10000, (319735 : ℚ) / 10000, 10) })) := rfl

/-- Claim C9: selecting the White Sands Missile Range example sets the
viewport to its coordinates at zoom 10, the anchor date to 2021-12-14, the
opacity of the displayed (slot-1, Month) composite to 0.8, shows the
clicked-point marker, and installs exactly the two White Sands narrative
labels at the narrative slot (10) plus the contact panel at slot 11,
leaving every other widget slot untouched - no label of a previously
selected site survives. -/
theorem c9_white_sands (arch : List Observation) (st : AppState)
    (h : 3 ≤ st.layers.length) :
    (locationSelectChange arch ("White Sands Missile Range, USA") st).center
        = ((-1063122 : ℚ) / 10000, (319735 : ℚ) / 10000, 10)
    ∧ (locationSelectChange arch ("White Sands Missile Range, USA") st).sliderValue
        = some ⟨2021, 12, 14⟩
    ∧ (locationSelectChange arch ("White Sands Missile Range, USA") st).dateLabel
        = formatDate ⟨2021, 12, 14⟩
    ∧ (getL (locationSelectChange arch ("White Sands Missile Range, USA") st).layers 1).map
        Layer.opacity = some (4 / 5)
    ∧ (getL (locationSelectChange arch ("White Sands Missile Range, USA") st).layers 1).map
        Layer.shown = some true
    ∧ (getL (locationSelectChange arch ("White Sands Missile Range, USA") st).layers 1).map
        Layer.name = some ("Month")
    ∧ (getL (locationSelectChange arch ("White Sands Missile Range, USA") st).layers 3).map
        Layer.shown = some true
    ∧ (getL (locationSelectChange arch ("White Sands Missile Range, USA") st).layers 3).map
        Layer.name = some ("clicked location")
    ∧ getW (locationSelectChange arch ("White Sands Missile Range, USA") st).widgets 10
        = some (Widget.textPanel [whiteSandsLabel1, whiteSandsLabel2])
    ∧ getW (locationSelectChange arch ("White Sands Missile Range, USA") st).widgets 11
        = some Widget.contactW
    ∧ (∀ i, i ≠ 3 → i ≠ 10 → i ≠ 11
        → getW (locationSelectChange arch ("White Sands Missile Range, USA") st).widgets i
            = getW st.widgets i) := by
  rw [locationSelectChange_ws]
  simp only [loc4Fun, dateSliderChange]
  refine ⟨rfl, rfl, rfl, ?_, ?_, ?_, ?_, ?_, ?_, ?_, ?_⟩
  · rw [configureExample_layers_get, (slide_layers_get arch _ _).2.1]
    rfl
  · rw [configureExample_layers_get, (slide_layers_get arch _ _).2.1]
    rfl
  · rw [configureExample_layers_get, (slide_layers_get arch _ _).2.1]
    rfl
  · rw [configureExample_layers_get, slide_layers_get_high arch _ _ 3 (by omega)]
    show ((getL (setL st.layers 3 _) 3).map _).map Layer.shown = some true
    rw [getL_setL_self _ 3 _ (by omega)]
    rfl
  · rw [configureExample_layers_get, slide_layers_get_high arch _ _ 3 (by omega)]
    show ((getL (setL st.layers 3 _) 3).map _).map Layer.name = some ("clicked location")
    rw [getL_setL_self _ 3 _ (by omega)]
    rfl
  · rw [configureExample_widgets_get]
    rfl
  · rw [configureExample_widgets_get]
    rfl
  · intro i hi3 hi10 hi11
    rw [configureExample_widgets_get, if_neg hi11, if_neg hi10]
    show getW (setW st.widgets 3 _) i = getW st.widgets i
    rw [getW_setW_ne _ i 3 _ hi3]

/-- Witness for C9 on a concrete four-layer view state. -/
theorem c9_white_sands_witness :
    3 ≤ stDemo.layers.length
      ∧ (locationSelectChange [] ("White Sands Missile Range, USA") stDemo).center
          = ((-1063122 : ℚ) / 10000, (319735 : ℚ) / 10000, 10) :=
  ⟨by decide, (c9_white_sands [] stDemo (by decide)).1⟩

/-- Claim C10: `configureExample` first hides every map layer and then
unconditionally shows exactly the slot-1 and slot-3 layers (independently
of the granularity dropdown value), applies the site opacity only to the
slot-1 layer, leaves every backing object untouched, and leaves any layer
at a higher slot hidden - in particular the Dammam annotation appended by
`loc1_function` immediately before ends up hidden at the appended slot. -/
theorem c10_configure_example (labels : List String) (op : ℚ) (st : AppState)
    (h : 4 ≤ st.layers.length) :
    ((configureExample labels op st).layers.length = st.layers.length)
    ∧ (∀ i, (getL (configureExample labels op st).layers i).map Layer.shown
        = (getL st.layers i).map (fun _ => decide (i = 1 ∨ i = 3)))
    ∧ ((getL (configureExample labels op st).layers 1).map Layer.opacity = some op)
    ∧ (∀ i, i ≠ 1 → (getL (configureExample labels op st).layers i).map Layer.opacity
        = (getL st.layers i).map Layer.opacity)
    ∧ (∀ i, (getL (configureExample labels op st).layers i).map Layer.data
        = (getL st.layers i).map Layer.data)
    ∧ (∀ g, (configureExample labels op { st with layerSelectValue := g }).layers
        = (configureExample labels op st).layers)
    ∧ ((loc1Fun st).layers.length = st.layers.length + 1)
    ∧ ((getL (loc1Fun st).layers st.layers.length).map Layer.shown = some false)
    ∧ ((getL (loc1Fun st).layers st.layers.length).map Layer.data
        = some (LayerData.annotation ("dammam patriot outline"))) := by
  have hshown : ∀ i, (getL (configureExample labels op st).layers i).map Layer.shown
      = (getL st.layers i).map (fun _ => decide (i = 1 ∨ i = 3)) := by
    intro i
    rw [configureExample_layers_get]
    cases getL st.layers i
    · rfl
    · rfl
  refine ⟨configureExample_layers_length labels op st, hshown, ?_, ?_, ?_, ?_, ?_, ?_, ?_⟩
  · obtain ⟨l, hl⟩ := getL_lt_length st.layers 1 (by omega)
    rw [configureExample_layers_get, hl]
    rfl
  · intro i hi
    rw [configureExample_layers_get]
    cases getL st.layers i
    · rfl
    · simp only [Option.map_some']
      rw [if_neg hi]
  · intro i
    rw [configureExample_layers_get]
    cases getL st.layers i
    · rfl
    · rfl
  · intro g
    rfl
  · simp only [loc1Fun]
    rw [configureExample_layers_length]
    simp
  · have hd : decide (st.layers.length = 1 ∨ st.layers.length = 3) = false :=
      decide_eq_false (by omega)
    simp only [loc1Fun]
    rw [configureExample_layers_get, getL_concat_self]
    simp only [Option.map_some', hd]
  · simp only [loc1Fun]
    rw [configureExample_layers_get, getL_concat_self]
    rfl

/-- Witness for C10 on a concrete four-layer view state. -/
theorem c10_configure_example_witness :
    4 ≤ stDemo.layers.length
      ∧ (configureExample [] (4 / 5) stDemo).layers.length = stDemo.layers.length :=
  ⟨by decide, (c10_configure_example [] (4 / 5) stDemo (by decide)).1⟩

end RIT
